import Mathlib

/-!
Shallow embedding of the HeartBeat query-orchestration engine
(`orchestrator/` package: state model, router, tool nodes, response
synthesizer, driver) together with proofs about the spec's claims.

Conventions used throughout:
* Python `Enum` classes become Lean inductives; a Python attribute access
  `ToolType.X` on the enum class is embedded as a name lookup over the
  declared members, returning `Except` so that a missing member models the
  `AttributeError` CPython raises.
* The dynamic values stored in the state's `dict` slots are embedded as the
  `PyVal` inductive; Python dicts (which preserve insertion order) become
  association lists.
* Wall-clock readings (`datetime.now()` differences) are not modelled; the
  millisecond durations that the source stores into results are passed in as
  explicit parameters, and the ISO-timestamp prefix that `add_error` puts in
  front of a message is abstracted into the message parameter itself (no
  claim inspects the text of an error message).
* External I/O performed inside a node's `try` body is abstracted into an
  `Except`-valued parameter giving the outcome of that backend interaction;
  the node's own control flow (branching, state updates, result
  construction) is translated from the source.
-/

namespace HeartBeat

/-- Dynamic (duck-typed) Python values appearing in the state's dict slots. -/
inductive PyVal where
  | pyNone : PyVal
  | str (s : String) : PyVal
  | int (n : Int) : PyVal
  | list (l : List PyVal) : PyVal
  | dict (d : List (String × PyVal)) : PyVal

/-- `UserRole` enum from `orchestrator/config/settings.py`. -/
inductive UserRole where
  | COACH | PLAYER | ANALYST | STAFF | SCOUT
deriving DecidableEq

/-- `QueryType` enum from `orchestrator/utils/state.py`. -/
inductive QueryType where
  | PLAYER_ANALYSIS | TEAM_PERFORMANCE | GAME_ANALYSIS | MATCHUP_COMPARISON
  | TACTICAL_ANALYSIS | STATISTICAL_QUERY | GENERAL_HOCKEY
deriving DecidableEq

/-- `ToolType` enum from `orchestrator/utils/state.py` (lines 26-32): its
five declared members, and no others. -/
inductive ToolType where
  | VECTOR_SEARCH | PARQUET_QUERY | CALCULATE_METRICS | MATCHUP_ANALYSIS
  | VISUALIZATION
deriving DecidableEq

/-- The member table of the `ToolType` enum class, exactly as declared in
`orchestrator/utils/state.py`. -/
def ToolType.members : List (String × ToolType) :=
  [("VECTOR_SEARCH", .VECTOR_SEARCH),
   ("PARQUET_QUERY", .PARQUET_QUERY),
   ("CALCULATE_METRICS", .CALCULATE_METRICS),
   ("MATCHUP_ANALYSIS", .MATCHUP_ANALYSIS),
   ("VISUALIZATION", .VISUALIZATION)]

/-- Python attribute access `ToolType.<attr>` on the enum class: yields the
member when it is declared, and raises `AttributeError` otherwise. -/
def ToolType.pyGetattr (attr : String) : Except String ToolType :=
  match ToolType.members.lookup attr with
  | some t => .ok t
  | none => .error ("AttributeError: type object ToolType has no attribute " ++ attr)

/-- `UserContext` dataclass from `orchestrator/utils/state.py`. -/
structure UserContext where
  user_id : String
  role : UserRole
  name : String := ""
  team_access : List String := ["MTL"]
  session_id : String := ""
deriving DecidableEq

/-- `ToolResult` dataclass from `orchestrator/utils/state.py`. -/
structure ToolResult where
  tool_type : ToolType
  success : Bool
  data : PyVal := .pyNone
  error : Option String := none
  execution_time_ms : Nat := 0
  citations : List String := []

/-- `AgentState` TypedDict from `orchestrator/utils/state.py`: the workflow
state threaded through every node.  `debug_info` is created once and never
read by any code a claim mentions, so it is omitted. -/
structure AgentState where
  user_context : UserContext
  original_query : String
  query_type : QueryType
  current_step : String
  iteration_count : Nat
  intent_analysis : List (String × PyVal)
  required_tools : List ToolType
  tool_sequence : List String
  tool_results : List ToolResult
  retrieved_context : List PyVal
  analytics_data : List (String × PyVal)
  evidence_chain : List String
  response_draft : String
  final_response : String
  processing_time_ms : Nat
  error_messages : List String

/-- `create_initial_state` from `orchestrator/utils/state.py`. -/
def create_initial_state (user_context : UserContext) (query : String)
    (query_type : Option QueryType := none) : AgentState :=
  { user_context := user_context
    original_query := query
    query_type := query_type.getD .GENERAL_HOCKEY
    current_step := "intent_analysis"
    iteration_count := 0
    intent_analysis := []
    required_tools := []
    tool_sequence := []
    tool_results := []
    retrieved_context := []
    analytics_data := []
    evidence_chain := []
    response_draft := ""
    final_response := ""
    processing_time_ms := 0
    error_messages := [] }

/-- `update_state_step` from `orchestrator/utils/state.py`. -/
def update_state_step (state : AgentState) (step_name : String) : AgentState :=
  { state with current_step := step_name, iteration_count := state.iteration_count + 1 }

/-- `add_tool_result` from `orchestrator/utils/state.py`: appends the result
to `tool_results` and, when the result carries citations, extends
`evidence_chain` with them (in order, at the end). -/
def add_tool_result (state : AgentState) (result : ToolResult) : AgentState :=
  let state := { state with tool_results := state.tool_results ++ [result] }
  if result.citations ≠ [] then
    { state with evidence_chain := state.evidence_chain ++ result.citations }
  else
    state

/-- `add_error` from `orchestrator/utils/state.py`; the wall-clock ISO
timestamp that the source prepends is abstracted into the message. -/
def add_error (state : AgentState) (error : String) : AgentState :=
  { state with error_messages := state.error_messages ++ [error] }

/-- `has_required_data` from `orchestrator/utils/state.py`: the
sufficient-context predicate consulted before synthesis. -/
def has_required_data (state : AgentState) : Bool :=
  decide (state.retrieved_context.length > 0) ||
  decide (state.analytics_data.length > 0) ||
  state.tool_results.any (·.success)

/-- The media-results slot of the state: the clip-retrieval node stores its
results under the `"clips"` key of `analytics_data`
(`orchestrator/nodes/clip_retriever.py`, line 147); the state has no
separate media field. -/
def mediaResults (state : AgentState) : List PyVal :=
  match state.analytics_data.lookup "clips" with
  | some (.list l) => l
  | _ => []

/-- Folding `add_tool_result` over a sequence of tool executions. -/
def addToolResults (state : AgentState) (results : List ToolResult) : AgentState :=
  results.foldl add_tool_result state

/-! ## String utilities

The source manipulates Python `str` values (lowercasing, `in` substring
tests, `.title()`, `.strip()`, slicing, `", ".join(...)`).  The embeddings
below operate on the underlying character lists so that every operation is
structurally recursive (and hence evaluable by `decide`/`rfl` on the
concrete inputs appearing in witnesses and counterexamples).  All strings in
the repository's vocabulary tables are ASCII, for which these agree with the
CPython operations. -/

/-- Python `str.lower()` (ASCII). -/
def pyLower (s : String) : String := ⟨s.data.map Char.toLower⟩

/-- Helper for `pyTitle`: `prevAlpha` records whether the previous character
was alphabetic. -/
def pyTitleGo : Bool → List Char → List Char
  | _, [] => []
  | prevAlpha, c :: cs =>
    (if c.isAlpha then (if prevAlpha then c.toLower else c.toUpper) else c) ::
      pyTitleGo c.isAlpha cs

/-- Python `str.title()` (ASCII): the first letter of every alphabetic run is
uppercased, the rest lowercased. -/
def pyTitle (s : String) : String := ⟨pyTitleGo false s.data⟩

/-- Does the first list start with the second? -/
def listStartsWith : List Char → List Char → Bool
  | [], _ => true
  | _ :: _, [] => false
  | a :: as, b :: bs => a = b && listStartsWith as bs

/-- Does `n` occur contiguously inside the second list? -/
def occursInL (n : List Char) : List Char → Bool
  | [] => n.isEmpty
  | c :: cs => listStartsWith n (c :: cs) || occursInL n cs

/-- Python `needle in haystack` on strings (substring containment; the empty
needle is contained in everything). -/
def pyIn (needle hay : String) : Bool := occursInL needle.data hay.data

/-- Python `str.replace(' ', '_')` as used on player names. -/
def spaceToUnderscore (s : String) : String :=
  ⟨s.data.map (fun c => if c = ' ' then '_' else c)⟩

/-- Python `str.strip()` (whitespace from both ends). -/
def pyStrip (s : String) : String :=
  ⟨((s.data.dropWhile Char.isWhitespace).reverse.dropWhile Char.isWhitespace).reverse⟩

/-- Python `len` on a string (character count; all embedded text is ASCII). -/
def pyLen (s : String) : Nat := s.data.length

/-- Python slicing `s[:n]`. -/
def pyTake (n : Nat) (s : String) : String := ⟨s.data.take n⟩

/-- Python `sep.join(l)`. -/
def joinWith (sep : String) : List String → String
  | [] => ""
  | [s] => s
  | s :: t :: rest => s ++ sep ++ joinWith sep (t :: rest)

/-- Lexicographic comparison of character lists. -/
def charListLe : List Char → List Char → Bool
  | [], _ => true
  | _ :: _, [] => false
  | a :: as, b :: bs =>
    if a < b then true
    else if b < a then false
    else charListLe as bs

/-- Lexicographic order on strings (a total order used to pick the canonical
enumeration of a Python `set`). -/
def strLeR (a b : String) : Prop := charListLe a.data b.data = true

instance : DecidableRel strLeR := fun _ _ => inferInstanceAs (Decidable (_ = true))

/-- CPython iterates a `set` of strings in an unspecified, hash-dependent
order (randomized per process).  The embedding models `list(set(l))` and
`iter(set(l))` by a canonical enumeration that depends only on the set of
elements: the deduplicated list sorted lexicographically.  Every proof below
uses only that the result is a function of the set of elements of `l`. -/
def pySetList (l : List String) : List String := l.dedup.insertionSort strLeR

/-! ## Orchestrator driver (`orchestrator/agents/heartbeat_orchestrator.py`) -/

/-- The `.value` of a `UserRole` member. -/
def UserRole.value : UserRole → String
  | .COACH => "coach"
  | .PLAYER => "player"
  | .ANALYST => "analyst"
  | .STAFF => "staff"
  | .SCOUT => "scout"

/-- The `.value` of a `QueryType` member. -/
def QueryType.value : QueryType → String
  | .PLAYER_ANALYSIS => "player_analysis"
  | .TEAM_PERFORMANCE => "team_performance"
  | .GAME_ANALYSIS => "game_analysis"
  | .MATCHUP_COMPARISON => "matchup_comparison"
  | .TACTICAL_ANALYSIS => "tactical_analysis"
  | .STATISTICAL_QUERY => "statistical_query"
  | .GENERAL_HOCKEY => "general_hockey"

/-- `HeartBeatOrchestrator._route_decision` (lines 211-235): the primary
routing decision over the required-tool set.  The source first computes
`has_pinecone` and `has_parquet` from declared members, then evaluates
`ToolType.CLIP_RETRIEVAL` — an attribute access on the enum class, embedded
through `ToolType.pyGetattr` — before any branch is taken. -/
def route_decision (required_tools : List ToolType) : Except String String := do
  let has_pinecone := required_tools.contains .VECTOR_SEARCH
  let has_parquet :=
    [ToolType.PARQUET_QUERY, .CALCULATE_METRICS, .MATCHUP_ANALYSIS].any
      (fun t => required_tools.contains t)
  let clipMember ← ToolType.pyGetattr "CLIP_RETRIEVAL"
  let has_clips := required_tools.contains clipMember
  if has_clips && (has_pinecone || has_parquet) then pure "clips_and_data"
  else if has_clips then pure "clips"
  else if has_pinecone && has_parquet then pure "both"
  else if has_pinecone then pure "pinecone"
  else if has_parquet then pure "parquet"
  else pure "synthesis"

/-- The `AttributeError` text produced by `ToolType.pyGetattr "CLIP_RETRIEVAL"`. -/
def clipAttributeError : String :=
  "AttributeError: type object ToolType has no attribute CLIP_RETRIEVAL"

/-- The external response shape assembled by
`HeartBeatOrchestrator.process_query`.  The Python success path and failure
path return dicts with different key sets; fields absent from a path keep
their listed defaults. -/
structure ExternalResponse where
  response : String
  query_type : Option String := none
  evidence_chain : List String := []
  tool_results : List ToolResult := []
  processing_time_ms : Nat := 0
  user_role : Option String := none
  errors : List String := []
  error : Option String := none
  success : Option Bool := none

/-- The fixed apology text of the driver's top-level exception handler
(`heartbeat_orchestrator.py`, line 175). -/
def apologyText : String :=
  "I apologize, but I encountered an error processing your request. Please try again or rephrase your question."

/-- `HeartBeatOrchestrator.process_query` (lines 116-179).  The body of the
`try` block — running the compiled workflow — is abstracted into the
`workflow` parameter: `.ok s` is the final state of a run that returned,
`.error e` is any exception escaping the inner layers.  `elapsed_ms` stands
for the wall-clock measurement.  The source's `except` clause builds the
fixed failure dict; the success path projects the final state. -/
def process_query (user_context : UserContext) (workflow : Except String AgentState)
    (elapsed_ms : Nat) : ExternalResponse :=
  match workflow with
  | .ok result =>
      { response := result.final_response
        query_type := some result.query_type.value
        evidence_chain := result.evidence_chain
        tool_results := result.tool_results
        processing_time_ms := elapsed_ms
        user_role := some user_context.role.value
        errors := result.error_messages }
  | .error e =>
      { response := apologyText
        error := some e
        processing_time_ms := elapsed_ms
        success := some false }

/-! ## Knowledge-retrieval node (`orchestrator/nodes/pinecone_retriever.py`) -/

/-- Python `d.get(key, default)` restricted to string values, as used when
formatting citations. -/
def pyGetStrOr (v : PyVal) (key dflt : String) : String :=
  match v with
  | .dict d =>
      match d.lookup key with
      | some (.str s) => s
      | _ => dflt
  | _ => dflt

/-- `PineconeRetrieverNode._extract_citations`: one `[source:category]` tag
per context entry, skipping tags already present (first-seen order). -/
def extract_citations (retrieved_context : List PyVal) : List String :=
  retrieved_context.foldl
    (fun citations ctx =>
      let source := pyGetStrOr ctx "source" "hockey_knowledge"
      let category := pyGetStrOr ctx "category" "general"
      let citation := "[" ++ source ++ ":" ++ category ++ "]"
      if citations.contains citation then citations else citations ++ [citation])
    []

/-- `PineconeRetrieverNode._generate_fallback_context`: the two fixed context
entries returned when the vector service is unavailable (texts abridged; no
claim inspects them). -/
def fallback_context : List PyVal :=
  [.dict [("id", .str "fallback_1"),
          ("content", .str "Hockey is played with six players per team on ice."),
          ("source", .str "hockey_basics"), ("category", .str "rules")],
   .dict [("id", .str "fallback_2"),
          ("content", .str "The Montreal Canadiens are a professional hockey team based in Montreal."),
          ("source", .str "team_info"), ("category", .str "team")]]

/-- `PineconeRetrieverNode._handle_unavailable_service` (lines 330-355):
called when the Pinecone index handle is absent.  It appends a ToolResult
with `success=True` carrying the fallback context and a fallback citation,
and overwrites the retrieved-context slot. -/
def handle_unavailable_service (execution_time : Nat) (state : AgentState) : AgentState :=
  let fb := fallback_context
  let tool_result : ToolResult :=
    { tool_type := .VECTOR_SEARCH, success := true, data := .list fb,
      execution_time_ms := execution_time,
      citations := ["[fallback:hockey_basics]"] }
  let state := { state with retrieved_context := fb }
  add_tool_result state tool_result

/-- `PineconeRetrieverNode.process` (lines 69-127).  `index_available` is
whether `self.index` was initialized; `body` abstracts the outcome of the
`try` body after the availability check (the MCP search plus
`_process_search_results`): `.ok ctx` is the processed retrieved context,
`.error e` any exception reaching the node's `except` clause. -/
def pineconeProcess (index_available : Bool) (body : Except String (List PyVal))
    (execution_time : Nat) (state : AgentState) : AgentState :=
  let state := update_state_step state "pinecone_retrieval"
  if ¬ index_available then handle_unavailable_service execution_time state
  else
    match body with
    | .ok retrieved_context =>
        let tool_result : ToolResult :=
          { tool_type := .VECTOR_SEARCH,
            success := decide (retrieved_context.length > 0),
            data := .list retrieved_context,
            execution_time_ms := execution_time,
            citations := extract_citations retrieved_context }
        let state := { state with retrieved_context := retrieved_context }
        add_tool_result state tool_result
    | .error e =>
        let state := add_error state ("Context retrieval failed: " ++ e)
        add_tool_result state
          { tool_type := .VECTOR_SEARCH, success := false, error := some e,
            execution_time_ms := execution_time }

/-! ## Media-retrieval node (`orchestrator/nodes/clip_retriever.py`) -/

/-- A clip search result (`ClipResult` of `orchestrator/models/clip_models.py`,
whose fields are fixed by their uses in `clip_retriever.py`).  Numeric scores
and durations are abstracted to integers; only their ordering is ever used. -/
structure ClipResult where
  clip_id : String
  title : String := ""
  player_name : String
  game_info : String := ""
  event_type : String := ""
  description : String := ""
  file_url : String := ""
  thumbnail_url : String := ""
  duration : Int := 0
  relevance_score : Int := 0
deriving DecidableEq

/-- Clip search parameters (`ClipSearchParams`).  The claims concern only the
player-name filter and the result limit; the further entity filters the node
extracts (event categories, opponents, time window) narrow the result set
without affecting whose clips are returned, and are not modelled. -/
structure ClipSearchParams where
  player_names : List String
  limit : Nat := 10
deriving DecidableEq

/-- The `mtl_players` vocabulary table of `ClipRetrieverNode.__init__`
(a Python set literal; it is only ever used through membership and substring
tests, so its iteration order is immaterial). -/
def mtl_players : List String :=
  ["nick suzuki", "cole caufield", "juraj slafkovsky", "kirby dach",
   "alex newhook", "brendan gallagher", "josh anderson", "jake evans",
   "joel armia", "christian dvorak", "emil heineman", "oliver kapanen",
   "owen beck", "joshua roy", "rafael harvey-pinard",
   "lane hutson", "kaiden guhle", "mike matheson", "david savard",
   "arber xhekaj", "jayden struble", "justin barron", "logan mailloux",
   "adam engstrom",
   "samuel montembeault", "cayden primeau", "jakub dobes",
   "suzuki", "caufield", "slafkovsky", "dach", "hutson", "guhle",
   "matheson", "gallagher", "anderson", "montembeault", "primeau"]

/-- `ClipRetrieverNode._extract_player_names` (lines 202-221); `query` is the
already-lowercased query text.  The final `list(set(...))` deduplication is
modelled first-seen (CPython set order is unspecified; no claim depends on
the order of this list). -/
def extract_player_names (query : String) (user_context : UserContext) : List String :=
  let found₁ :=
    if ["my", "me", "i "].any (fun w => pyIn w query) then
      let user_name := pyLower user_context.name
      if user_name ≠ "" then
        if (mtl_players.map spaceToUnderscore).contains (spaceToUnderscore user_name) then
          [pyTitle user_name]
        else []
      else []
    else []
  let found₂ := (mtl_players.filter (fun p => pyIn p query)).map pyTitle
  (found₁ ++ found₂).dedup

/-- `ClipRetrieverNode._apply_user_permissions` (lines 364-394): for the
Player role, an empty player filter is replaced by the requester's own
(title-cased) name; a non-empty filter is restricted to entries equal to the
requester's name up to case. -/
def apply_user_permissions (search_params : ClipSearchParams)
    (user_context : UserContext) : ClipSearchParams :=
  let user_name := pyTitle user_context.name
  if user_context.role = .PLAYER then
    if user_name ≠ "" ∧ search_params.player_names = [] then
      { search_params with player_names := [user_name] }
    else if user_name ≠ "" ∧ search_params.player_names ≠ [] then
      { search_params with player_names :=
          search_params.player_names.filter (fun n => pyLower n = pyLower user_name) }
    else search_params
  else search_params

/-- Modelled from the spec: `ClipIndexManager.search_clips`
(`orchestrator/models/clip_models.py` is not under `src/`).  Spec section 6
fixes the media-index contract `search(entity_filters, limit)`: the indexed
clips matching every supplied entity filter, capped at the limit.  Following
section 4.1, a request whose player filter is empty "carries no owner
constraint" and places no restriction on the owner. -/
def search_clips (index : List ClipResult) (params : ClipSearchParams) : List ClipResult :=
  (index.filter (fun c =>
      decide (params.player_names = []) || decide (c.player_name ∈ params.player_names))).take
    params.limit

/-- Insertion step for the relevance sort. -/
def insertByRelevance (c : ClipResult) : List ClipResult → List ClipResult
  | [] => [c]
  | d :: ds =>
      if d.relevance_score ≤ c.relevance_score then c :: d :: ds
      else d :: insertByRelevance c ds

/-- The node's `clip_results.sort(key=relevance, reverse=True)` (descending
relevance; tie order is immaterial to every claim). -/
def sortByRelevance (l : List ClipResult) : List ClipResult :=
  l.foldr insertByRelevance []

/-- `ClipRetrieverNode._execute_clip_search` (lines 346-362): apply the
permission filter to the parameters, search the clip index, sort by
descending relevance. -/
def execute_clip_search (index : List ClipResult) (search_params : ClipSearchParams)
    (user_context : UserContext) : List ClipResult :=
  let filtered_params := apply_user_permissions search_params user_context
  let clip_results := search_clips index filtered_params
  sortByRelevance clip_results

/-- `ClipRetrieverNode._clip_result_to_dict`. -/
def clip_result_to_dict (c : ClipResult) : PyVal :=
  .dict [("clip_id", .str c.clip_id), ("title", .str c.title),
         ("player_name", .str c.player_name), ("game_info", .str c.game_info),
         ("event_type", .str c.event_type), ("description", .str c.description),
         ("file_url", .str c.file_url), ("thumbnail_url", .str c.thumbnail_url),
         ("duration", .int c.duration), ("relevance_score", .int c.relevance_score)]

/-- `ClipRetrieverNode._generate_citations` (lines 423-446).  The source
enumerates Python sets of games and players; the enumeration is modelled by
`pySetList` (canonical order).  This code is unreachable at runtime — the
node fails before citing — and no claim inspects it. -/
def clip_generate_citations (clip_results : List ClipResult) : List String :=
  if clip_results.isEmpty then []
  else
    let base := ["[clip_database:" ++ toString clip_results.length ++ "_clips]"]
    let unique_games := pySetList ((clip_results.map (·.game_info)).filter (· ≠ ""))
    let unique_players := pySetList (clip_results.map (·.player_name))
    let base := if unique_games ≠ [] then
        base ++ ["[games:" ++ joinWith "," (unique_games.take 3) ++ "]"] else base
    if unique_players ≠ [] then
      base ++ ["[players:" ++ joinWith "," (unique_players.take 3) ++ "]"]
    else base

/-- Ordered insertion into an association list, as Python dict item
assignment: replace in place when the key exists, append otherwise. -/
def pyDictSet (d : List (String × PyVal)) (key : String) (v : PyVal) :
    List (String × PyVal) :=
  match d with
  | [] => [(key, v)]
  | (k, w) :: rest =>
      if k = key then (k, v) :: rest else (k, w) :: pyDictSet rest key v

/-- `ClipRetrieverNode.process` (lines 100-166).  `search` abstracts the
outcome of the body through line 126 (parameter parsing and the clip
search): `.ok clips` the retrieved clips, `.error e` any exception.  Both
the success path (line 133) and the `except` handler (line 159) then
construct a `ToolResult` whose `tool_type` is the attribute access
`ToolType.CLIP_RETRIEVAL`; the resulting `AttributeError` of either access
escapes the node, so the embedding returns `Except`. -/
def clipProcess (search : Except String (List ClipResult)) (execution_time : Nat)
    (state : AgentState) : Except String AgentState :=
  let state := update_state_step state "clip_retrieval"
  let handler := fun (e : String) (state : AgentState) =>
    let state := add_error state ("Clip retrieval failed: " ++ e)
    match ToolType.pyGetattr "CLIP_RETRIEVAL" with
    | .ok tt =>
        .ok (add_tool_result state
          { tool_type := tt, success := false, error := some e,
            execution_time_ms := execution_time })
    | .error e₂ => Except.error e₂
  match search with
  | .ok clip_results =>
      match ToolType.pyGetattr "CLIP_RETRIEVAL" with
      | .ok tt =>
          let tool_result : ToolResult :=
            { tool_type := tt, success := decide (clip_results.length > 0),
              data := .dict [("clips", .list (clip_results.map clip_result_to_dict)),
                             ("total_found", .int clip_results.length)],
              execution_time_ms := execution_time,
              citations := clip_generate_citations clip_results }
          let state := { state with
            analytics_data :=
              pyDictSet state.analytics_data "clips"
                (.list (clip_results.map clip_result_to_dict)) }
          .ok (add_tool_result state tool_result)
      | .error e => handler e state
  | .error e => handler e state

/-! ## Response synthesizer (`orchestrator/nodes/response_synthesizer.py`) -/

/-- `OrchestrationConfig.max_response_length` (`orchestrator/config/settings.py`). -/
def max_response_length : Nat := 2000

/-- `OrchestrationConfig.require_citations` (`orchestrator/config/settings.py`). -/
def require_citations : Bool := true

/-- `ResponseSynthesizerNode._post_process_response` (lines 404-422):
truncate an over-long response (appending a marker), then — when citation
requirements are on, citations exist, and none of them occurs verbatim in
the response — append one `Sources:` line joining `set(citations)`
(modelled by `pySetList`, see there); finally strip surrounding whitespace. -/
def post_process_response (response : String) (evidence_chain : List String) : String :=
  let response :=
    if pyLen response > max_response_length then
      pyTake max_response_length response ++ "..."
    else response
  let response :=
    if require_citations &&
        !evidence_chain.isEmpty &&
        !(evidence_chain.any (fun cite => pyIn cite response)) then
      response ++ "\n\nSources: " ++ joinWith ", " (pySetList evidence_chain)
    else response
  pyStrip response

/-- The spec's version of the citation post-processing (section 4.6 step 4),
stated for comparison with `post_process_response`: identical except that
the appended `Sources:` line is built from the evidence list deduplicated in
FIRST-SEEN order. -/
def spec_post_process_response (response : String) (evidence_chain : List String) : String :=
  let response :=
    if pyLen response > max_response_length then
      pyTake max_response_length response ++ "..."
    else response
  let response :=
    if require_citations &&
        !evidence_chain.isEmpty &&
        !(evidence_chain.any (fun cite => pyIn cite response)) then
      response ++ "\n\nSources: " ++ joinWith ", " evidence_chain.eraseDups
    else response
  pyStrip response

/-- The fixed insufficient-data message of
`ResponseSynthesizerNode._handle_insufficient_data` (text abridged to its
first sentence; no claim inspects the wording). -/
def insufficientDataResponse : String :=
  "I apologize, but I do not have sufficient data to provide a comprehensive analysis for your query."

/-- `ResponseSynthesizerNode._generate_fallback_response` (lines 458-472;
text abridged; no claim inspects the wording). -/
def generate_fallback_response (state : AgentState) : String :=
  "I encountered an issue processing your request about " ++
    pyTake 100 state.original_query ++ ". Please try your question again."

/-- `ResponseSynthesizerNode._handle_insufficient_data` (lines 424-456):
skip generation, set the fixed message as the final response, and append a
`ToolResult` tagged `PARQUET_QUERY` with `success=False`; nothing is added
to `error_messages` (the source only logs a warning). -/
def handle_insufficient_data (execution_time : Nat) (state : AgentState) : AgentState :=
  let tool_result : ToolResult :=
    { tool_type := .PARQUET_QUERY, success := false,
      error := some "Insufficient data for synthesis",
      execution_time_ms := execution_time }
  let state := { state with final_response := insufficientDataResponse }
  add_tool_result state tool_result

/-- The success path of `ResponseSynthesizerNode.process` (lines 89-131):
post-process the generated text, store it as the final response, and append
a `PARQUET_QUERY`-tagged `ToolResult` whose citations are the whole current
evidence chain. -/
def synth_success_path (response : String) (execution_time : Nat)
    (state : AgentState) : AgentState :=
  let final_response := post_process_response response state.evidence_chain
  let tool_result : ToolResult :=
    { tool_type := .PARQUET_QUERY,
      success := decide (pyLen (pyStrip final_response) > 0),
      data := .dict [("response", .str final_response)],
      execution_time_ms := execution_time,
      citations := state.evidence_chain }
  let state := { state with final_response := final_response }
  add_tool_result state tool_result

/-- The `except` path of `ResponseSynthesizerNode.process` (lines 133-148):
record the error, store the fallback response, and append a failed
`PARQUET_QUERY`-tagged `ToolResult`. -/
def synth_exception_path (e : String) (execution_time : Nat)
    (state : AgentState) : AgentState :=
  let state := add_error state ("Response synthesis failed: " ++ e)
  let state := { state with final_response := generate_fallback_response state }
  add_tool_result state
    { tool_type := .PARQUET_QUERY, success := false, error := some e,
      execution_time_ms := execution_time }

/-- `ResponseSynthesizerNode.process` (lines 78-150).  `generation`
abstracts the outcome of the body after the sufficiency check (prompt
construction and `_generate_response`): `.ok text` the generated text —
`_generate_response` itself never raises, falling back to a local template —
and `.error e` any exception escaping the body into the node's `except`
clause. -/
def synthesizerProcess (generation : Except String String) (execution_time : Nat)
    (state : AgentState) : AgentState :=
  let state := update_state_step state "response_synthesis"
  if ¬ has_required_data state then handle_insufficient_data execution_time state
  else
    match generation with
    | .ok response => synth_success_path response execution_time state
    | .error e => synth_exception_path e execution_time state

/-! ## Helper lemmas -/

theorem add_tool_result_evidence (s : AgentState) (r : ToolResult) :
    (add_tool_result s r).evidence_chain = s.evidence_chain ++ r.citations := by
  unfold add_tool_result
  by_cases h : r.citations = []
  · simp [h]
  · simp [h]

theorem add_tool_result_results (s : AgentState) (r : ToolResult) :
    (add_tool_result s r).tool_results = s.tool_results ++ [r] := by
  unfold add_tool_result
  by_cases h : r.citations = []
  · simp [h]
  · simp [h]

theorem charListLe_total : ∀ x y, charListLe x y = true ∨ charListLe y x = true := by
  intro x
  induction x with
  | nil => intro y; left; rfl
  | cons a as ih =>
    intro y
    cases y with
    | nil => right; rfl
    | cons b bs =>
      rcases lt_trichotomy a b with h | h | h
      · left; simp [charListLe, h]
      · subst h
        rcases ih bs with h' | h'
        · left; simp [charListLe, lt_irrefl, h']
        · right; simp [charListLe, lt_irrefl, h']
      · right; simp [charListLe, h]

theorem charListLe_antisymm :
    ∀ x y, charListLe x y = true → charListLe y x = true → x = y := by
  intro x
  induction x with
  | nil =>
    intro y _ hyx
    cases y with
    | nil => rfl
    | cons b bs => simp [charListLe] at hyx
  | cons a as ih =>
    intro y hxy hyx
    cases y with
    | nil => simp [charListLe] at hxy
    | cons b bs =>
      rcases lt_trichotomy a b with h | h | h
      · simp [charListLe, h, asymm h] at hyx
      · subst h
        simp [charListLe, lt_irrefl] at hxy hyx
        rw [ih bs hxy hyx]
      · simp [charListLe, h, asymm h] at hxy

theorem charListLe_trans :
    ∀ x y z, charListLe x y = true → charListLe y z = true → charListLe x z = true := by
  intro x
  induction x with
  | nil => intro y z _ _; rfl
  | cons a as ih =>
    intro y z hxy hyz
    cases y with
    | nil => simp [charListLe] at hxy
    | cons b bs =>
      cases z with
      | nil => simp [charListLe] at hyz
      | cons c cs =>
        rcases lt_trichotomy a b with hab | hab | hab
        · rcases lt_trichotomy b c with hbc | hbc | hbc
          · simp [charListLe, lt_trans hab hbc]
          · subst hbc; simp [charListLe, hab]
          · simp [charListLe, hbc, asymm hbc] at hyz
        · subst hab
          rcases lt_trichotomy a c with hbc | hbc | hbc
          · simp [charListLe, hbc]
          · subst hbc
            simp [charListLe, lt_irrefl] at hxy hyz ⊢
            exact ih bs cs hxy hyz
          · simp [charListLe, hbc, asymm hbc] at hyz
        · simp [charListLe, hab, asymm hab] at hxy

instance : IsTotal String strLeR := ⟨fun a b => charListLe_total a.data b.data⟩

instance : IsTrans String strLeR := ⟨fun a b c => charListLe_trans a.data b.data c.data⟩

instance : IsAntisymm String strLeR :=
  ⟨fun a b h h' => by
    cases a; cases b
    exact congrArg String.mk (charListLe_antisymm _ _ h h')⟩

theorem pySetList_congr {l₁ l₂ : List String} (h : l₁.toFinset = l₂.toFinset) :
    pySetList l₁ = pySetList l₂ := by
  unfold pySetList
  have hperm : List.Perm l₁.dedup l₂.dedup := List.toFinset_eq_iff_perm_dedup.mp h
  exact List.eq_of_perm_of_sorted
    (((List.perm_insertionSort _ _).trans hperm).trans (List.perm_insertionSort _ _).symm)
    (List.sorted_insertionSort _ _) (List.sorted_insertionSort _ _)

theorem mem_insertByRelevance {c d : ClipResult} {l : List ClipResult} :
    c ∈ insertByRelevance d l ↔ c = d ∨ c ∈ l := by
  induction l with
  | nil => simp [insertByRelevance]
  | cons e es ih =>
    unfold insertByRelevance
    by_cases h : e.relevance_score ≤ d.relevance_score
    · simp [h]
    · simp only [if_neg h, List.mem_cons, ih]
      tauto

theorem mem_sortByRelevance {c : ClipResult} {l : List ClipResult} :
    c ∈ sortByRelevance l ↔ c ∈ l := by
  induction l with
  | nil => simp [sortByRelevance]
  | cons e es ih =>
    unfold sortByRelevance at *
    simp [List.foldr_cons, mem_insertByRelevance, ih]

/-! ## Claim theorems -/

/-- C1: the claim states that the primary routing decision is a pure
function of the required-tool set returning exactly the section-4.3 table
value, raising no exception for any input subset.  On the code this fails
for every input: `_route_decision` unconditionally evaluates
`ToolType.CLIP_RETRIEVAL`, a member the `ToolType` enum of
`orchestrator/utils/state.py` does not declare, so the decision raises
`AttributeError` before returning any table value. -/
theorem c1_route_decision_always_raises :
    ∀ required_tools : List ToolType,
      route_decision required_tools = Except.error clipAttributeError :=
  fun _ => rfl

/-- C2: the claim states that every tool node turns every backend or
internal failure into exactly one appended `ToolResult{success:false}`,
never propagating an exception to the driver.  On the code the
media-retrieval node violates this for every invocation, successful backend
call or not: both its success path (line 133) and its own `except` handler
(line 159) evaluate the absent enum member `ToolType.CLIP_RETRIEVAL`, so
the handler itself raises and the `AttributeError` escapes to the driver
with no `ToolResult` appended. -/
theorem c2_clip_node_propagates_attribute_error :
    ∀ (search : Except String (List ClipResult)) (execution_time : Nat) (s : AgentState),
      clipProcess search execution_time s = Except.error clipAttributeError := by
  intro search execution_time s
  cases search <;> rfl

/-- C4: for every query and identity the driver never raises; any exception
escaping the inner layers is caught by `process_query` and converted into
the fixed failure response: the generic apology text with `success=false`
(and the cause recorded under `error`). -/
theorem c4_driver_converts_exceptions :
    ∀ (user_context : UserContext) (e : String) (elapsed_ms : Nat),
      (process_query user_context (Except.error e) elapsed_ms).response = apologyText ∧
      (process_query user_context (Except.error e) elapsed_ms).success = some false ∧
      (process_query user_context (Except.error e) elapsed_ms).error = some e :=
  fun _ _ _ => ⟨rfl, rfl, rfl⟩

/-- C3: the sufficient-context predicate is false exactly when the
retrieved-context slot is empty, the analytics mapping is empty, the
media-results slot (the `clips` entry of the analytics mapping, where the
media node stores its results) is empty, and every `ToolResult` has
`success=false`. -/
theorem c3_has_required_data_characterization :
    ∀ s : AgentState,
      has_required_data s = false ↔
        (s.retrieved_context = [] ∧ s.analytics_data = [] ∧ mediaResults s = [] ∧
          ∀ r ∈ s.tool_results, r.success = false) := by
  intro s
  unfold has_required_data
  simp only [Bool.or_eq_false_iff, decide_eq_false_iff_not, Nat.pos_iff_ne_zero, ne_eq,
    not_not, List.length_eq_zero, List.any_eq_false]
  constructor
  · rintro ⟨⟨h₁, h₂⟩, h₃⟩
    refine ⟨h₁, h₂, ?_, fun r hr => by simpa using h₃ r hr⟩
    unfold mediaResults
    rw [h₂]
    rfl
  · rintro ⟨h₁, h₂, _, h₄⟩
    exact ⟨⟨h₁, h₂⟩, fun r hr => by simpa using h₄ r hr⟩

/-- C7: whenever the sufficient-context predicate is false, the synthesizer
skips generation entirely (the result does not depend on the generation
outcome), sets the final answer to the fixed insufficient-data message, and
records no error: the error-message list is unchanged, and the appended
`ToolResult` is the fixed failed synthesis marker. -/
theorem c7_insufficient_data_path :
    ∀ (generation : Except String String) (execution_time : Nat) (s : AgentState),
      has_required_data s = false →
      (synthesizerProcess generation execution_time s).final_response =
          insufficientDataResponse ∧
      (synthesizerProcess generation execution_time s).error_messages =
          s.error_messages ∧
      (synthesizerProcess generation execution_time s).tool_results =
          s.tool_results ++
            [{ tool_type := .PARQUET_QUERY, success := false,
               error := some "Insufficient data for synthesis",
               execution_time_ms := execution_time }] ∧
      (∀ generation₂,
          synthesizerProcess generation₂ execution_time s =
            synthesizerProcess generation execution_time s) := by
  intro generation execution_time s h
  have hcond : ¬ has_required_data (update_state_step s "response_synthesis") = true := by
    intro hc
    rw [show has_required_data (update_state_step s "response_synthesis") =
          has_required_data s from rfl, h] at hc
    cases hc
  have hps : ∀ g : Except String String,
      synthesizerProcess g execution_time s =
        handle_insufficient_data execution_time (update_state_step s "response_synthesis") := by
    intro g
    simp only [synthesizerProcess]
    rw [if_pos hcond]
  refine ⟨by rw [hps]; rfl, by rw [hps]; rfl, ?_,
    fun g₂ => (hps g₂).trans (hps generation).symm⟩
  rw [hps]
  exact add_tool_result_results _ _

/-- Witness for C7 at a concrete state: the freshly initialized state of a
greeting query has no context, and the synthesizer on it returns the fixed
message without touching the error list, for either generation outcome. -/
theorem c7_insufficient_data_path_witness :
    has_required_data
        (create_initial_state
          { user_id := "u1", role := .ANALYST, name := "ann lee" } "hello") = false ∧
      (synthesizerProcess (Except.ok "generated text") 5
          (create_initial_state
            { user_id := "u1", role := .ANALYST, name := "ann lee" } "hello")).final_response =
        insufficientDataResponse :=
  ⟨by decide,
   (c7_insufficient_data_path (Except.ok "generated text") 5
      (create_initial_state
        { user_id := "u1", role := .ANALYST, name := "ann lee" } "hello")
      (by decide)).1⟩

/-- C9: evidence accumulation is append-only, in tool-execution order:
appending one `ToolResult` extends the evidence list with exactly that
result's citations at the end (and the result list with that result);
a sequence of tool executions yields the concatenation of their citation
lists in execution order; and the other state operations leave the evidence
list untouched. -/
theorem c9_evidence_append_only :
    (∀ (s : AgentState) (r : ToolResult),
        (add_tool_result s r).evidence_chain = s.evidence_chain ++ r.citations ∧
        (add_tool_result s r).tool_results = s.tool_results ++ [r]) ∧
    (∀ (s : AgentState) (results : List ToolResult),
        (addToolResults s results).evidence_chain =
          s.evidence_chain ++ (results.map (·.citations)).flatten) ∧
    (∀ (s : AgentState) (step_name : String),
        (update_state_step s step_name).evidence_chain = s.evidence_chain) ∧
    (∀ (s : AgentState) (e : String),
        (add_error s e).evidence_chain = s.evidence_chain) := by
  refine ⟨fun s r => ⟨add_tool_result_evidence s r, add_tool_result_results s r⟩,
    fun s results => ?_, fun _ _ => rfl, fun _ _ => rfl⟩
  induction results generalizing s with
  | nil => simp [addToolResults]
  | cons r rs ih =>
    unfold addToolResults at *
    simp only [List.foldl_cons, List.map_cons, List.flatten_cons, ih (add_tool_result s r),
      add_tool_result_evidence, List.append_assoc]

/-- C10: every run of the response synthesizer — success, insufficient-data
and internal-exception path alike — appends exactly one additional
`ToolResult`, and its tool identifier is the structured-query
(`PARQUET_QUERY`) tool type, even when the structured-analytics tool never
ran. -/
theorem c10_synthesizer_appends_parquet_tagged_result :
    ∀ (generation : Except String String) (execution_time : Nat) (s : AgentState),
      ∃ r : ToolResult,
        (synthesizerProcess generation execution_time s).tool_results =
            s.tool_results ++ [r] ∧
        r.tool_type = ToolType.PARQUET_QUERY := by
  intro generation execution_time s
  by_cases h : has_required_data (update_state_step s "response_synthesis") = true
  · cases generation with
    | ok response =>
        have hred : synthesizerProcess (Except.ok response) execution_time s =
            synth_success_path response execution_time
              (update_state_step s "response_synthesis") := by
          simp only [synthesizerProcess]
          rw [if_neg (not_not_intro h)]
        rw [hred]
        simp only [synth_success_path]
        refine ⟨_, add_tool_result_results _ _, ?_⟩
        rfl
    | error e =>
        have hred : synthesizerProcess (Except.error e) execution_time s =
            synth_exception_path e execution_time
              (update_state_step s "response_synthesis") := by
          simp only [synthesizerProcess]
          rw [if_neg (not_not_intro h)]
        rw [hred]
        simp only [synth_exception_path]
        refine ⟨_, add_tool_result_results _ _, ?_⟩
        rfl
  · have hred : synthesizerProcess generation execution_time s =
        handle_insufficient_data execution_time
          (update_state_step s "response_synthesis") := by
      simp only [synthesizerProcess]
      rw [if_pos h]
    rw [hred]
    simp only [handle_insufficient_data]
    refine ⟨_, add_tool_result_results _ _, ?_⟩
    rfl

/-- C5 counterexample: the claim states that for a Player-role requester,
any returned media results reference only the requester's own name in all
cases.  On the code this fails when the query explicitly names only another
player: the permission filter then empties the player-name list, which the
search treats as carrying no owner constraint, so the other player's clips
are returned.  Concretely, for Player "nick suzuki" asking "caufield goals"
against an index holding one Caufield clip, the returned results contain a
clip referencing a name other than the requester's. -/
theorem c5_counterexample :
    ∃ c ∈ execute_clip_search
        [{ clip_id := "c1", player_name := "Cole Caufield", event_type := "goals" }]
        { player_names :=
            extract_player_names (pyLower "caufield goals")
              { user_id := "u1", role := .PLAYER, name := "nick suzuki" } }
        { user_id := "u1", role := .PLAYER, name := "nick suzuki" },
      c.player_name ≠ "Nick Suzuki" := by decide

/-- C5 amended: for a Player-role requester with a non-empty name, (a) a
query naming no subject has the requester's own (title-cased) name
substituted as the player filter, (b) every name surviving the permission
filter is the requester's own name up to case, and (c) when the query named
no subject, every returned media result references exactly the requester's
own name.  (When the query names only other players the filter becomes
empty and the search is unconstrained — see the counterexample.) -/
theorem c5_player_permission_amended :
    ∀ (u : UserContext) (params : ClipSearchParams) (index : List ClipResult),
      u.role = .PLAYER → pyTitle u.name ≠ "" →
      ((params.player_names = [] →
          (apply_user_permissions params u).player_names = [pyTitle u.name]) ∧
       (∀ n ∈ (apply_user_permissions params u).player_names,
          n = pyTitle u.name ∨ pyLower n = pyLower (pyTitle u.name)) ∧
       (params.player_names = [] →
          ∀ c ∈ execute_clip_search index params u,
            c.player_name = pyTitle u.name)) := by
  intro u params index hrole hname
  have hperm : ∀ _ : params.player_names = [],
      apply_user_permissions params u =
        { params with player_names := [pyTitle u.name] } := by
    intro hp
    unfold apply_user_permissions
    rw [if_pos hrole, if_pos ⟨hname, hp⟩]
  refine ⟨fun hp => by rw [hperm hp], ?_, ?_⟩
  · intro n hn
    unfold apply_user_permissions at hn
    rw [if_pos hrole] at hn
    by_cases hp : params.player_names = []
    · rw [if_pos ⟨hname, hp⟩] at hn
      simp only [List.mem_singleton] at hn
      exact Or.inl hn
    · rw [if_neg (fun hc => hp hc.2), if_pos ⟨hname, hp⟩] at hn
      simp only [List.mem_filter, decide_eq_true_eq] at hn
      exact Or.inr hn.2
  · intro hp c hc
    unfold execute_clip_search at hc
    rw [hperm hp] at hc
    rw [mem_sortByRelevance] at hc
    have hc' := List.take_subset _ _ hc
    simp only [List.mem_filter, decide_eq_true_eq, Bool.or_eq_true] at hc'
    rcases hc'.2 with h | h
    · cases h
    · simpa using h

/-- Witness for C5 amended: Player "nick suzuki" with an empty extracted
player filter gets the own-name substitution, and every clip the search
returns from a mixed index is the requester's own. -/
theorem c5_player_permission_amended_witness :
    (let u : UserContext := { user_id := "u2", role := .PLAYER, name := "nick suzuki" }
     let params : ClipSearchParams := { player_names := [] }
     let index : List ClipResult :=
       [{ clip_id := "c1", player_name := "Cole Caufield" },
        { clip_id := "c2", player_name := "Nick Suzuki" }]
     (params.player_names = [] →
        (apply_user_permissions params u).player_names = [pyTitle u.name]) ∧
     (∀ n ∈ (apply_user_permissions params u).player_names,
        n = pyTitle u.name ∨ pyLower n = pyLower (pyTitle u.name)) ∧
     (params.player_names = [] →
        ∀ c ∈ execute_clip_search index params u, c.player_name = pyTitle u.name)) :=
  c5_player_permission_amended _ _ _ rfl (by decide)

/-- C6 counterexample: the claim states the appended `Sources:` line is
built from the evidence list deduplicated in FIRST-SEEN order.  The code
builds it from `set(citations)` — an enumeration that depends only on the
set of citations — so the post-processing cannot agree with the first-seen
specification on both orderings of the evidence list `["b", "a"]` /
`["a", "b"]`; it disagrees with it at `("x", ["b", "a"])`. -/
theorem c6_counterexample :
    ¬ ∀ (response : String) (evidence_chain : List String),
        post_process_response response evidence_chain =
          spec_post_process_response response evidence_chain :=
  fun h => absurd (h "x" ["b", "a"]) (by decide)

/-- C6 amended: when citation requirements are enabled, the evidence list is
non-empty and none of its strings occurs verbatim in the (non-truncated)
generated text, exactly one `Sources:` line is appended, built from the
evidence list deduplicated in an order that is a function of the set of
citations (the source enumerates a Python set) — not of first-seen order:
the output is invariant under any reordering or duplication of the evidence
list that preserves its set of elements. -/
theorem c6_sources_line_amended :
    (∀ (response : String) (ev₁ ev₂ : List String),
        ev₁.toFinset = ev₂.toFinset →
        post_process_response response ev₁ = post_process_response response ev₂) ∧
    (∀ (response : String) (evidence_chain : List String),
        pyLen response ≤ max_response_length →
        evidence_chain ≠ [] →
        (∀ cite ∈ evidence_chain, pyIn cite response = false) →
        post_process_response response evidence_chain =
          pyStrip (response ++ "\n\nSources: " ++
            joinWith ", " (pySetList evidence_chain))) := by
  constructor
  · intro response ev₁ ev₂ hset
    have hmem : ∀ a : String, a ∈ ev₁ ↔ a ∈ ev₂ := fun a => by
      rw [← List.mem_toFinset, hset, List.mem_toFinset]
    have hemp : ev₁.isEmpty = ev₂.isEmpty := by
      rcases h₁ : ev₁ with _ | ⟨a, l⟩ <;> rcases h₂ : ev₂ with _ | ⟨b, m⟩
      · rfl
      · exact absurd ((hmem b).mpr (h₂ ▸ List.mem_cons_self b m)) (by simp [h₁])
      · exact absurd ((hmem a).mp (h₁ ▸ List.mem_cons_self a l)) (by simp [h₂])
      · rfl
    have hany : ∀ p : String → Bool, ev₁.any p = ev₂.any p := fun p => by
      cases h₂ : ev₂.any p
      · rw [List.any_eq_false] at h₂ ⊢
        exact fun x hx => h₂ x ((hmem x).mp hx)
      · rw [List.any_eq_true] at h₂ ⊢
        obtain ⟨x, hx, hpx⟩ := h₂
        exact ⟨x, (hmem x).mpr hx, hpx⟩
    simp only [post_process_response]
    rw [hemp, hany, pySetList_congr hset]
  · intro response evidence_chain hlen hne hnone
    have h₁ : ¬ pyLen response > max_response_length := Nat.not_lt.mpr hlen
    have h₂ : (require_citations && !evidence_chain.isEmpty &&
        !(evidence_chain.any fun cite => pyIn cite response)) = true := by
      have he : evidence_chain.isEmpty = false := by
        rcases evidence_chain with _ | ⟨a, l⟩
        · exact absurd rfl hne
        · rfl
      have ha : (evidence_chain.any fun cite => pyIn cite response) = false :=
        List.any_eq_false.mpr fun x hx => by rw [hnone x hx]; simp
      rw [he, ha]
      rfl
    simp only [post_process_response]
    rw [if_neg h₁, if_pos h₂]

/-- Witness for C6 amended: the output is unchanged under reordering and
duplication of the evidence set, and on a concrete non-truncated response
with a fresh citation the appended line is exactly the canonical one. -/
theorem c6_sources_line_amended_witness :
    post_process_response "x" ["a", "b", "a"] = post_process_response "x" ["b", "a", "b"] ∧
    post_process_response "x" ["a"] =
      pyStrip ("x" ++ "\n\nSources: " ++ joinWith ", " (pySetList ["a"])) :=
  ⟨c6_sources_line_amended.1 "x" ["a", "b", "a"] ["b", "a", "b"] (by decide),
   c6_sources_line_amended.2 "x" ["a"] (by decide) (by decide) (by decide)⟩

end HeartBeat
